import Mathlib

/-!
Verification development for the HearThis player (listenathearthisat.py).

The file shallowly embeds the playback core of the program: the GStreamer
adapter (`GstPlayer`), the application state (`HearThisApp`'s mutable
attributes, here `AppState`), and the signal handlers that drive playlist
continuity, seeking and now-playing metadata.  Python dictionaries holding
track data become the `Track` structure (absent keys are `none`; Python
truthiness of strings is `truthy`).  Side-effecting backend calls are
recorded in an explicit call trace (`GstPlayer.calls`) together with the
adapter's requested pipeline state; `print` output is recorded in
`AppState.printed`.  Asynchronous `GLib.idle_add` marshalling is modelled by
applying the marshalled update as part of the handler (the program's single
UI thread applies it before the next handler runs).  External I/O (network
fetches, GdkPixbuf decoding, widget layout) is outside the core: a fetched
remote artwork is represented by its source URL, and a tag image by its
byte string, with `textureFromBytes` keeping only the source's
`if not b: return None` check.
-/

/-- Python truthiness of an optional string: `None` and `""` are falsy. -/
def truthy (o : Option String) : Bool :=
  match o with
  | none => false
  | some s => !(s == "")

/-- The string held by an optional string, `""` when absent. -/
def oStr (o : Option String) : String := o.getD ""

/-- Python `a or d` for an optional string `a` and a string default `d`. -/
def pyOr (a : Option String) (d : String) : String :=
  if truthy a then oStr a else d

/-- Python `a or b` for two optional strings. -/
def pyOrO (a b : Option String) : Option String :=
  if truthy a then a else b

/-- Track Record: one track dictionary from the catalog API.  Absent keys
are `none`; `username` stands for `t.get("user", {}).get("username")`,
`thumbnail` for `t.get("images", {}).get("thumbnail")`. -/
structure Track where
  title : Option String := none
  username : Option String := none
  genre : Option String := none
  category : Option String := none
  stream_url : Option String := none
  artwork_url : Option String := none
  thumb : Option String := none
  thumbnail : Option String := none
deriving Inhabited, DecidableEq

/-- `title = t.get("title") or "Unknown"`. -/
def trackTitle (t : Track) : String := pyOr t.title "Unknown"

/-- `user = t.get("user", {}).get("username") or ""`. -/
def trackUser (t : Track) : String := pyOr t.username ""

/-- `genre = t.get("genre") or (t.get("category") or "")`. -/
def trackGenre (t : Track) : String := pyOr t.genre (pyOr t.category "")

/-- `meta_line = user if user else (f"genre: {genre}" if genre else "")`,
shared by `_play_track_from` and `_update_now_playing_labels`. -/
def metaLine (t : Track) : String :=
  if trackUser t ≠ "" then trackUser t
  else if trackGenre t ≠ "" then "genre: " ++ trackGenre t
  else ""

/-- One recorded call into the playbin-owning adapter. -/
inductive PlayerCall where
  | setUriC (u : String)
  | playC
  | pauseC
  | stopC
  | seekC (sec : Int)
  | setVolumeC (v : ℚ)
  | setMutedC (m : Bool)
deriving DecidableEq

/-- The pipeline state last requested from the playbin
(`Gst.State.NULL / PAUSED / PLAYING`). -/
inductive GstState where
  | null
  | paused
  | playing
deriving DecidableEq

/-- The GStreamer adapter (`class GstPlayer`): the staged uri, the requested
pipeline state, volume and mute, plus the trace of calls issued to the
backend. -/
structure GstPlayer where
  uri : Option String
  gstState : GstState
  volume : ℚ
  muted : Bool
  calls : List PlayerCall
deriving DecidableEq

/-- `set_uri`: stages a stream uri on the playbin (`set_property("uri", _)`). -/
def GstPlayer.set_uri (p : GstPlayer) (u : String) : GstPlayer :=
  { p with uri := some u, calls := p.calls ++ [.setUriC u] }

/-- `play`: requests `Gst.State.PLAYING`. -/
def GstPlayer.play (p : GstPlayer) : GstPlayer :=
  { p with gstState := .playing, calls := p.calls ++ [.playC] }

/-- `pause`: requests `Gst.State.PAUSED`. -/
def GstPlayer.pause (p : GstPlayer) : GstPlayer :=
  { p with gstState := .paused, calls := p.calls ++ [.pauseC] }

/-- `stop`: requests `Gst.State.NULL`. -/
def GstPlayer.stop (p : GstPlayer) : GstPlayer :=
  { p with gstState := .null, calls := p.calls ++ [.stopC] }

/-- `seek_seconds`: `sec = max(0, sec)` then a flush seek to `sec`. -/
def GstPlayer.seek_seconds (p : GstPlayer) (sec : Int) : GstPlayer :=
  { p with calls := p.calls ++ [.seekC (max 0 sec)] }

/-- `set_volume`: `v = max(0.0, min(1.0, v))` then
`set_property("volume", v)`.  Volume is modelled in ℚ; the Python clamp
uses only order comparisons, which agree with the rational order. -/
def GstPlayer.set_volume (p : GstPlayer) (v : ℚ) : GstPlayer :=
  { p with volume := max 0 (min 1 v),
           calls := p.calls ++ [.setVolumeC (max 0 (min 1 v))] }

/-- `set_muted`. -/
def GstPlayer.set_muted (p : GstPlayer) (m : Bool) : GstPlayer :=
  { p with muted := m, calls := p.calls ++ [.setMutedC m] }

/-- An embedded tag event (`Gst.TagList`): each field is `some s` when
`taglist.get_string(TAG)[0]` was true with value `s`; `image` and
`preview_image` carry the mapped sample bytes when present. -/
structure TagEvent where
  title : Option String := none
  artist : Option String := none
  genre : Option String := none
  image : Option String := none
  preview_image : Option String := none
deriving Inhabited, DecidableEq

/-- `texture_from_bytes`: `None` on empty input (`if not b: return None`);
GdkPixbuf decoding itself is external and modelled as succeeding. -/
def textureFromBytes (b : String) : Option String :=
  if b = "" then none else some b

/-- `TAG_IMAGE` if present, else `TAG_PREVIEW_IMAGE` (presence, not
truthiness, as in the source's `get_sample(...)[0]` checks). -/
def chosenImage (ev : TagEvent) : Option String :=
  match ev.image with
  | some b => some b
  | none => ev.preview_image

/-- The texture a tag event yields for the cover, if any. -/
def tagCover (ev : TagEvent) : Option String :=
  match chosenImage ev with
  | none => none
  | some b => textureFromBytes b

/-- A message on the playbin bus, as dispatched by
`GstPlayer._on_bus_message`. -/
inductive BusMessage where
  | eos
  | errorMsg (err dbg : String)
  | tagMsg (tl : TagEvent)

/-- The mutable attributes of `HearThisApp` together with the displayed
widgets the handlers write (labels, icons, the position scale) and the
`print` log. -/
structure AppState where
  player : GstPlayer
  local_tracks : List Track
  selected_tracks : List Track
  current_playlist : String
  current_index : Int
  is_seeking : Bool
  playpause_icon : String
  now_title : String
  now_meta : String
  now_cover : Option String
  last_stream_texture : Option String
  pos_scale_value : Int
  pos_scale_sensitive : Bool
  pos_scale_max : Int
  time_label : String
  printed : List String
  current_mode : String
  current_param : String
  current_type : Option String
  current_page : Int
  page_label : String
  artist_username : String
  selected_genre : String
deriving DecidableEq

def startIcon : String := "media-playback-start-symbolic"

def pauseIcon : String := "media-playback-pause-symbolic"

/-- The fresh adapter of `GstPlayer.__init__` (playbin defaults). -/
def initPlayer : GstPlayer :=
  { uri := none, gstState := .null, volume := 1, muted := false, calls := [] }

/-- The application state after `__init__` and the widget setup of
`on_activate` (before `self.player.set_volume(1.0)` fires). -/
def baseState : AppState :=
  { player := initPlayer
    local_tracks := []
    selected_tracks := []
    current_playlist := "all"
    current_index := -1
    is_seeking := false
    playpause_icon := startIcon
    now_title := ""
    now_meta := ""
    now_cover := none
    last_stream_texture := none
    pos_scale_value := 0
    pos_scale_sensitive := true
    pos_scale_max := 100
    time_label := "00:00 / 00:00"
    printed := []
    current_mode := ""
    current_param := ""
    current_type := none
    current_page := 1
    page_label := "Page: 1"
    artist_username := ""
    selected_genre := "" }

/-- The tracks of the named playlist (`"selected"` reads
`self.selected_tracks`, anything else reads `self.local_tracks`). -/
def playlistTracks (st : AppState) (name : String) : List Track :=
  if name = "selected" then st.selected_tracks else st.local_tracks

/-- The tracks of the playlist the cursor currently names. -/
def activeTracks (st : AppState) : List Track :=
  playlistTracks st st.current_playlist

/-- The common success tail of `_play_track_from`: cursor assignment,
`set_uri` + `play()`, pause icon, now-playing labels and remote cover
choice (`artwork_url or thumb or images.thumbnail`, fetched when it is a
truthy http url, else the cover is cleared). -/
def playBody (st : AppState) (pname : String) (t : Track) (index : Int) : AppState :=
  let cover := pyOrO t.artwork_url (pyOrO t.thumb t.thumbnail)
  { st with current_playlist := pname
            current_index := index
            player := (st.player.set_uri (oStr t.stream_url)).play
            playpause_icon := pauseIcon
            now_title := trackTitle t
            now_meta := metaLine t
            now_cover :=
              if truthy cover && (oStr cover).take 4 == "http" then cover else none }

/-- `HearThisApp._play_track_from`: validates the index against the named
playlist, requires a truthy `stream_url`, and otherwise returns with no
state change and no report (both failure paths are a bare `return`). -/
def _play_track_from (st : AppState) (playlist_name : String) (index : Int) : AppState :=
  let ts := playlistTracks st playlist_name
  if 0 ≤ index ∧ index < (ts.length : Int) then
    let t := ts.getD index.toNat default
    if truthy t.stream_url then
      playBody st (if playlist_name = "selected" then "selected" else "all") t index
    else st
  else st

/-- `HearThisApp._advance_index`: `-1` when the active playlist is empty or
`current_index + 1` falls past its end, else `current_index + 1`. -/
def _advance_index (st : AppState) : Int :=
  let total : Int := (activeTracks st).length
  if total = 0 then -1
  else if st.current_index + 1 ≥ total then -1
  else st.current_index + 1

/-- `HearThisApp._update_now_playing_labels` (marshalled via
`GLib.idle_add` in the source). -/
def _update_now_playing_labels (st : AppState) (t : Track) : AppState :=
  { st with now_title := trackTitle t, now_meta := metaLine t }

/-- The track `_advance_index` would advance to. -/
def nextTrack (st : AppState) : Track :=
  (activeTracks st).getD (st.current_index + 1).toNat default

/-- `HearThisApp._on_about_to_finish`: when a next track exists and has a
truthy `stream_url`, stage its uri on the playbin (no `play()` call),
advance `current_index` immediately, and publish its labels. -/
def _on_about_to_finish (st : AppState) : AppState :=
  let nxt := _advance_index st
  if nxt < 0 then st
  else
    let t := (activeTracks st).getD nxt.toNat default
    if truthy t.stream_url then
      _update_now_playing_labels
        { st with player := st.player.set_uri (oStr t.stream_url)
                  current_index := nxt } t
    else st

/-- `HearThisApp._on_eos`: fallback advance — a full `_play_track_from` on
`_advance_index` whenever that is non-negative. -/
def _on_eos (st : AppState) : AppState :=
  let nxt := _advance_index st
  if 0 ≤ nxt then _play_track_from st st.current_playlist nxt else st

/-- `HearThisApp._update_now_playing_from_tags`: a truthy tag title
overwrites the title label; a truthy artist (or, failing that, genre)
overwrites the meta label. -/
def _update_now_playing_from_tags (st : AppState) (title artist genre : Option String) : AppState :=
  let st1 := if truthy title then { st with now_title := oStr title } else st
  if truthy artist || truthy genre then
    { st1 with now_meta :=
        if truthy artist then oStr artist
        else if truthy genre then "genre: " ++ oStr genre
        else "" }
  else st1

/-- `HearThisApp._on_gst_tags`: dispatch the label update when any of
title/artist/genre is truthy, then apply an embedded image (image or
preview-image) to `last_stream_texture` and the displayed cover when it
decodes. -/
def _on_gst_tags (st : AppState) (ev : TagEvent) : AppState :=
  let st1 :=
    if truthy ev.title || truthy ev.artist || truthy ev.genre then
      _update_now_playing_from_tags st ev.title ev.artist ev.genre
    else st
  match tagCover ev with
  | none => st1
  | some tex => { st1 with last_stream_texture := some tex, now_cover := some tex }

/-- `GstPlayer._on_bus_message` with the callbacks `HearThisApp.__init__`
installs: `EOS` runs `_on_eos`, `ERROR` only prints, `TAG` runs
`_on_gst_tags`. -/
def _on_bus_message (st : AppState) (m : BusMessage) : AppState :=
  match m with
  | .eos => _on_eos st
  | .errorMsg err dbg =>
      { st with printed := st.printed ++ ["GStreamer ERROR: " ++ err ++ " " ++ dbg] }
  | .tagMsg tl => _on_gst_tags st tl

/-- `HearThisApp.on_play_pause`: pause with the start icon when the
backend reports `PLAYING`, else play with the pause icon. -/
def on_play_pause (st : AppState) : AppState :=
  if st.player.gstState = .playing then
    { st with player := st.player.pause, playpause_icon := startIcon }
  else
    { st with player := st.player.play, playpause_icon := pauseIcon }

/-- `HearThisApp.on_seek` (the scale's value-changed handler): a backend
seek to the scale value, only while `is_seeking` is set. -/
def on_seek (st : AppState) : AppState :=
  if st.is_seeking then
    { st with player := st.player.seek_seconds st.pos_scale_value }
  else st

/-- A write of the position scale's value: the adjustment clamps into
`[0, pos_scale_max]` and emits value-changed (running `on_seek`) only when
the stored value actually changes. -/
def scale_set_value (st : AppState) (v : Int) : AppState :=
  let vc := max 0 (min v st.pos_scale_max)
  if st.pos_scale_value = vc then st else on_seek { st with pos_scale_value := vc }

/-- `HearThisApp._on_seek_start`: the gesture-press handler sets the
seeking latch. -/
def _on_seek_start (st : AppState) : AppState := { st with is_seeking := true }

/-- `HearThisApp._on_seek_end`: the gesture-release handler clears the
seeking latch (and issues no seek of its own). -/
def _on_seek_end (st : AppState) : AppState := { st with is_seeking := false }

/-- Zero-padded two-digit rendering, Python `f"{n:02}"` for the
non-negative values the position poll produces. -/
def pad2 (n : Int) : String :=
  if 0 ≤ n ∧ n < 10 then "0" ++ toString n else toString n

/-- The `"MM:SS / MM:SS"` time label (Python floor division and modulo). -/
def fmtTime (pos dur : Int) : String :=
  pad2 (Int.fdiv pos 60) ++ ":" ++ pad2 (Int.fmod pos 60) ++ " / " ++
    pad2 (Int.fdiv dur 60) ++ ":" ++ pad2 (Int.fmod dur 60)

/-- `HearThisApp.update_position`, one 100 ms poll tick with the backend's
`query_pos_dur()` answer `(pos, dur)`: unknown duration falls back to a
100-wide insensitive scale; the scale value is written from the poll only
while `is_seeking` is clear; the time label always updates. -/
def update_position (st : AppState) (pos dur : Int) : AppState :=
  let dur2 := if dur ≤ 0 then 100 else dur
  let st1 := { st with pos_scale_sensitive := if dur ≤ 0 then false else true
                       pos_scale_max := dur2 }
  let st2 := if st1.is_seeking then st1 else scale_set_value st1 pos
  { st2 with time_label := fmtTime pos dur2 }

/-- `HearThisApp.on_stop`: backend stop, start icon, scale reset to zero,
placeholder time label, insensitive scale. -/
def on_stop (st : AppState) : AppState :=
  let st1 := { st with player := st.player.stop, playpause_icon := startIcon }
  let st2 := scale_set_value st1 0
  { st2 with time_label := "00:00 / 00:00", pos_scale_sensitive := false }

/-- `HearThisApp._clear_all_tracks`: empties `local_tracks` (and the All
list box); `selected_tracks` is untouched. -/
def _clear_all_tracks (st : AppState) : AppState := { st with local_tracks := [] }

/-- `HearThisApp.fill_track_list`: optional clear, then append the fetched
records to `local_tracks`. -/
def fill_track_list (st : AppState) (ts : List Track) (clear_first append : Bool) : AppState :=
  let st1 := if clear_first then _clear_all_tracks st else st
  { st1 with local_tracks := st1.local_tracks ++ ts }

/-- `HearThisApp.on_search_artist` (with the stripped entry text): set the
query fields, clear the All list, and spawn the fetches (whose results
arrive later as a page-result event). -/
def on_search_artist (st : AppState) (username : String) : AppState :=
  if username = "" then st
  else
    _clear_all_tracks
      { st with artist_username := username
                current_mode := "artist"
                current_param := username
                current_type := some "tracks"
                current_page := 1 }

/-- `HearThisApp.on_search_on_platform`. -/
def on_search_on_platform (st : AppState) (q : String) : AppState :=
  if q = "" then st
  else
    _clear_all_tracks
      { st with current_mode := "search"
                current_param := q
                current_type := none
                current_page := 1 }

/-- `HearThisApp.load_artist_tracks`. -/
def load_artist_tracks (st : AppState) (ty : String) : AppState :=
  if st.artist_username = "" then st
  else
    _clear_all_tracks
      { st with current_mode := "artist"
                current_param := st.artist_username
                current_type := some ty
                current_page := 1 }

/-- `HearThisApp.on_load_genre` (with the dropdown's selected item). -/
def on_load_genre (st : AppState) (g : Option String) : AppState :=
  match g with
  | none => st
  | some s =>
    _clear_all_tracks
      { st with selected_genre := s
                current_mode := "genre"
                current_param := s
                current_type := none
                current_page := 1 }

/-- `HearThisApp.on_prev_page`. -/
def on_prev_page (st : AppState) : AppState :=
  if st.current_mode ≠ "" ∧ 1 < st.current_page then
    _clear_all_tracks { st with current_page := st.current_page - 1 }
  else st

/-- `HearThisApp.on_next_page`. -/
def on_next_page (st : AppState) : AppState :=
  if st.current_mode ≠ "" then
    _clear_all_tracks { st with current_page := st.current_page + 1 }
  else st

/-- `HearThisApp.on_load_more`: bumps the page and label without clearing;
the fetched rows arrive later with `append = true`. -/
def on_load_more (st : AppState) : AppState :=
  if st.current_mode ≠ "" then
    { st with current_page := st.current_page + 1
              page_label := "Page: " ++ toString (st.current_page + 1) }
  else st

/-- A `_fetch_page` result applied on the UI thread:
`fill_track_list(data, clear_first = not append, append)` plus the page
label. -/
def page_result (st : AppState) (ts : List Track) (page : Int) (append : Bool) : AppState :=
  { fill_track_list st ts (!append) append with page_label := "Page: " ++ toString page }

/-- `HearThisApp.on_row_activated`: play the activated All row. -/
def on_row_activated (st : AppState) (idx : Nat) : AppState :=
  _play_track_from st "all" idx

/-- `HearThisApp.on_row_activated_selected`. -/
def on_row_activated_selected (st : AppState) (idx : Nat) : AppState :=
  _play_track_from st "selected" idx

/-- `HearThisApp.on_add_selected` (with the All list's selected row, if
any): appends that row's track to `selected_tracks`. -/
def on_add_selected (st : AppState) (sel : Option Track) : AppState :=
  match sel with
  | none => st
  | some t => { st with selected_tracks := st.selected_tracks ++ [t] }

/-- Every modelled input to the application: user intents, poll ticks,
fetched page results and backend events. -/
inductive AppEvent where
  | searchArtist (username : String)
  | searchPlatform (q : String)
  | loadArtist (ty : String)
  | loadGenre (g : Option String)
  | prevPage
  | nextPage
  | loadMore
  | pageResult (ts : List Track) (page : Int) (append : Bool)
  | rowActivated (idx : Nat)
  | rowActivatedSelected (idx : Nat)
  | addSelected (sel : Option Track)
  | playPause
  | stopBtn
  | seekStart
  | seekEnd
  | valueChanged (v : Int)
  | posTick (pos dur : Int)
  | busMessage (m : BusMessage)
  | aboutToFinish

/-- Dispatch of one event to its handler. -/
def appStep (e : AppEvent) (st : AppState) : AppState :=
  match e with
  | .searchArtist u => on_search_artist st u
  | .searchPlatform q => on_search_on_platform st q
  | .loadArtist ty => load_artist_tracks st ty
  | .loadGenre g => on_load_genre st g
  | .prevPage => on_prev_page st
  | .nextPage => on_next_page st
  | .loadMore => on_load_more st
  | .pageResult ts page append => page_result st ts page append
  | .rowActivated idx => on_row_activated st idx
  | .rowActivatedSelected idx => on_row_activated_selected st idx
  | .addSelected sel => on_add_selected st sel
  | .playPause => on_play_pause st
  | .stopBtn => on_stop st
  | .seekStart => _on_seek_start st
  | .seekEnd => _on_seek_end st
  | .valueChanged v => scale_set_value st v
  | .posTick pos dur => update_position st pos dur
  | .busMessage m => _on_bus_message st m
  | .aboutToFinish => _on_about_to_finish st

/-- Fold a list of events over a state. -/
def runEvents (es : List AppEvent) (st : AppState) : AppState :=
  es.foldl (fun s e => appStep e s) st

/-- The seek targets recorded in the adapter's call trace, in order. -/
def seekCalls (p : GstPlayer) : List Int :=
  p.calls.filterMap fun c =>
    match c with
    | .seekC s => some s
    | _ => none

/-- The clamp the position scale's adjustment applies to a written value. -/
def clampScale (st : AppState) (v : Int) : Int :=
  max 0 (min v st.pos_scale_max)

/-! Concrete tracks and states used by witnesses and counterexamples. -/

def trkA : Track := { title := some "A", stream_url := some "s1" }

def trkB : Track := { title := some "B", stream_url := some "s2" }

def trkC : Track := { title := some "C", stream_url := some "s3" }

def trkNoStream : Track := { title := some "N" }

/-- Playing track 0 of the three-track All playlist. -/
def c1Start : AppState :=
  { baseState with
      local_tracks := [trkA, trkB, trkC]
      current_index := 0
      now_title := "A"
      player := { initPlayer with uri := some "s1", gstState := .playing } }

/-- The state after `_on_about_to_finish` staged track 1 for the 0 → 1
transition. -/
def c1Mid : AppState := _on_about_to_finish c1Start

/-- Playing the last track (index 1 of two). -/
def c1Last : AppState :=
  { baseState with
      local_tracks := [trkA, trkB]
      current_index := 1
      player := { initPlayer with uri := some "s2", gstState := .playing } }

/-- Playing track 1 whose successor lacks a stream url. -/
def c2State : AppState :=
  { baseState with
      local_tracks := [trkNoStream, trkB]
      current_index := 1
      player := { initPlayer with uri := some "s2", gstState := .playing } }

/-- C1 (counterexample): in a three-track playlist, after `_on_about_to_finish`
has already advanced the cursor for the 0 → 1 transition (index 1, uri s2
staged), a subsequent `_on_eos` for that same transition is not a no-op:
the handler advances again to index 2, reloads the backend with s3 and
republishes the metadata — a double advance, since `_on_eos` has no
"already advanced" guard. -/
theorem eos_after_advance_double_advances :
    c1Mid.current_index = 1 ∧ c1Mid.player.uri = some "s2" ∧
    (_on_eos c1Mid).current_index = 2 ∧
    (_on_eos c1Mid).player.uri = some "s3" ∧
    (_on_eos c1Mid).now_title ≠ c1Mid.now_title := by decide

/-- C1 (amended): after `_on_about_to_finish` has advanced the cursor, a
subsequent `_on_eos` is a no-op only when the advanced cursor has no
further next index (`_advance_index` is negative, e.g. at the last track,
as in the spec's two-track scenario); the code has no guard for the case
where a further next exists. -/
theorem eos_noop_when_no_further_next (st : AppState)
    (h : _advance_index st < 0) : _on_eos st = st := by
  have h' : ¬ (0 ≤ _advance_index st) := by omega
  simp [_on_eos, h']

/-- Witness for the amended C1 at the spec's own scenario: cursor already
advanced to the last of two tracks. -/
theorem eos_noop_when_no_further_next_witness :
    _advance_index c1Last < 0 ∧ _on_eos c1Last = c1Last :=
  ⟨by decide, eos_noop_when_no_further_next c1Last (by decide)⟩

/-- C2 (counterexample): calling `_play_track_from` on the in-range index 0
of the All playlist, whose Track Record lacks `stream_url`, returns a state
equal to the input in every component — cursor, backend call trace, labels
and even the print log.  The call is observationally indistinguishable
from not having been made: no MissingStream error is reported to the
caller, the failure is silently swallowed. -/
theorem play_at_missing_stream_unreported :
    _play_track_from c2State "all" 0 = c2State ∧
    (_play_track_from c2State "all" 0).printed = [] ∧
    (_play_track_from c2State "all" 0).player.calls = [] := by decide

/-- C2 (amended): for every playlist and in-range index whose track lacks a
truthy `stream_url`, `_play_track_from` leaves the previous Playback
Cursor and the backend state entirely unchanged — but it does so silently,
returning with no error report of any kind. -/
theorem play_at_missing_stream_silent (st : AppState) (name : String) (idx : Int)
    (h0 : 0 ≤ idx) (h1 : idx < ((playlistTracks st name).length : Int))
    (h2 : truthy ((playlistTracks st name).getD idx.toNat default).stream_url = false) :
    _play_track_from st name idx = st := by
  simp only [_play_track_from]
  rw [if_pos ⟨h0, h1⟩]
  rw [List.getD_eq_getElem?_getD] at h2
  simp [h2]

/-- Witness for the amended C2: the streamless track at index 0. -/
theorem play_at_missing_stream_silent_witness :
    (0 : Int) ≤ 0 ∧
    (0 : Int) < ((playlistTracks c2State "all").length : Int) ∧
    truthy ((playlistTracks c2State "all").getD (0 : Int).toNat default).stream_url = false ∧
    _play_track_from c2State "all" 0 = c2State :=
  ⟨by decide, by decide, by decide,
    play_at_missing_stream_silent c2State "all" 0 (by decide) (by decide) (by decide)⟩

/-- C6: with the cursor invariant (`current_index` is `-1` or a valid
position), `_advance_index` returns `current_index + 1` exactly when that
index exists in the active playlist, and `-1` (no next) otherwise — in
particular `-1` at the last index, never wrapping to 0. -/
theorem advance_index_spec (st : AppState) (h : -1 ≤ st.current_index) :
    _advance_index st =
      if st.current_index + 1 < ((activeTracks st).length : Int) then
        st.current_index + 1
      else -1 := by
  simp only [_advance_index]
  split_ifs <;> omega

/-- Witness for C6 at the last index of a two-track playlist: the result
is `-1`, not a wraparound to 0. -/
theorem advance_index_spec_witness :
    (-1 : Int) ≤ c1Last.current_index ∧
    (_advance_index c1Last =
      if c1Last.current_index + 1 < ((activeTracks c1Last).length : Int) then
        c1Last.current_index + 1
      else -1) ∧
    _advance_index c1Last = -1 :=
  ⟨by decide, advance_index_spec c1Last (by decide), by decide⟩

/-- C10: `set_volume` is total and clamps every rational input into
`[0, 1]`: the resulting backend volume is `max 0 (min 1 v)`, always within
range, and the call touches nothing else of the adapter. -/
theorem set_volume_clamps (p : GstPlayer) (v : ℚ) :
    (p.set_volume v).volume = max 0 (min 1 v) ∧
    0 ≤ (p.set_volume v).volume ∧ (p.set_volume v).volume ≤ 1 ∧
    (p.set_volume v).uri = p.uri ∧
    (p.set_volume v).gstState = p.gstState ∧
    (p.set_volume v).muted = p.muted := by
  refine ⟨rfl, le_max_left _ _, max_le ?_ (min_le_left _ _), rfl, rfl, rfl⟩
  exact zero_le_one

/-- C4: when `_on_about_to_finish` fires with a next index in range whose
track has a truthy `stream_url`, the handler advances the cursor to
`i + 1`, stages that track's uri into the backend with no `play()` call
(the call trace grows by exactly the one `set_uri`, the requested pipeline
state is untouched), and publishes the next track's remote title and meta
line — all as part of the handler itself, before any end-of-stream event
is processed. -/
theorem about_to_finish_gapless (st : AppState)
    (h0 : 0 ≤ st.current_index)
    (h1 : st.current_index + 1 < ((activeTracks st).length : Int))
    (h2 : truthy (nextTrack st).stream_url = true) :
    (_on_about_to_finish st).current_index = st.current_index + 1 ∧
    (_on_about_to_finish st).player.uri = some (oStr (nextTrack st).stream_url) ∧
    (_on_about_to_finish st).player.calls
      = st.player.calls ++ [PlayerCall.setUriC (oStr (nextTrack st).stream_url)] ∧
    (_on_about_to_finish st).player.gstState = st.player.gstState ∧
    (_on_about_to_finish st).now_title = trackTitle (nextTrack st) ∧
    (_on_about_to_finish st).now_meta = metaLine (nextTrack st) := by
  have hadv : _advance_index st = st.current_index + 1 := by
    simp only [_advance_index]
    split_ifs <;> omega
  have hnt : (activeTracks st).getD (st.current_index + 1).toNat default
      = nextTrack st := rfl
  simp only [_on_about_to_finish, hadv]
  rw [if_neg (by omega : ¬ st.current_index + 1 < 0), hnt, if_pos h2]
  exact ⟨rfl, rfl, rfl, rfl, rfl, rfl⟩

/-- Playing track 0 of a two-track All playlist. -/
def c4Start : AppState :=
  { baseState with
      local_tracks := [trkA, trkB]
      current_index := 0
      now_title := "A"
      player := { initPlayer with uri := some "s1", gstState := .playing } }

/-- Witness for C4: the about-to-finish transition from track 0 to track 1
of a two-track All playlist. -/
theorem about_to_finish_gapless_witness :
    ((0 : Int) ≤ c4Start.current_index ∧
      c4Start.current_index + 1 < ((activeTracks c4Start).length : Int) ∧
      truthy (nextTrack c4Start).stream_url = true) ∧
    ((_on_about_to_finish c4Start).current_index = c4Start.current_index + 1 ∧
      (_on_about_to_finish c4Start).player.uri
        = some (oStr (nextTrack c4Start).stream_url) ∧
      (_on_about_to_finish c4Start).player.calls
        = c4Start.player.calls
            ++ [PlayerCall.setUriC (oStr (nextTrack c4Start).stream_url)] ∧
      (_on_about_to_finish c4Start).player.gstState = c4Start.player.gstState ∧
      (_on_about_to_finish c4Start).now_title = trackTitle (nextTrack c4Start) ∧
      (_on_about_to_finish c4Start).now_meta = metaLine (nextTrack c4Start)) :=
  ⟨⟨by decide, by decide, by decide⟩,
    about_to_finish_gapless c4Start (by decide) (by decide) (by decide)⟩

/-- C5 (counterexample): while track 0 of two is playing (a playable next
track exists, `_advance_index = 1`), a backend ERROR bus message changes
nothing but the print log: the cursor stays at 0, the loaded uri, the call
trace and the labels are untouched, and no fallback `playAt` advance
happens — the session is left hanging on the errored track. -/
theorem error_only_logged_cex :
    _advance_index c1Start = 1 ∧
    (_on_bus_message c1Start (.errorMsg "err" "dbg")).current_index
      = c1Start.current_index ∧
    (_on_bus_message c1Start (.errorMsg "err" "dbg")).player = c1Start.player ∧
    (_on_bus_message c1Start (.errorMsg "err" "dbg")).now_title = c1Start.now_title ∧
    (_on_bus_message c1Start (.errorMsg "err" "dbg")).printed
      = ["GStreamer ERROR: err dbg"] := by decide

/-- C5 (amended): a backend ERROR bus message is only logged: the adapter,
the Playback Cursor, both playlists and the published metadata are all
unchanged; the sole effect is the appended log line.  No end-of-stream
fallback advance is performed. -/
theorem error_handler_only_logs (st : AppState) (err dbg : String) :
    (_on_bus_message st (.errorMsg err dbg)).player = st.player ∧
    (_on_bus_message st (.errorMsg err dbg)).current_index = st.current_index ∧
    (_on_bus_message st (.errorMsg err dbg)).current_playlist = st.current_playlist ∧
    (_on_bus_message st (.errorMsg err dbg)).now_title = st.now_title ∧
    (_on_bus_message st (.errorMsg err dbg)).now_meta = st.now_meta ∧
    (_on_bus_message st (.errorMsg err dbg)).local_tracks = st.local_tracks ∧
    (_on_bus_message st (.errorMsg err dbg)).selected_tracks = st.selected_tracks ∧
    (_on_bus_message st (.errorMsg err dbg)).printed
      = st.printed ++ ["GStreamer ERROR: " ++ err ++ " " ++ dbg] :=
  ⟨rfl, rfl, rfl, rfl, rfl, rfl, rfl, rfl⟩

/-- C7 (counterexample): from the Idle state (backend NULL, nothing
loaded, start icon showing), `on_play_pause` is not a no-op: it issues a
`play()` call to the backend, requests the Playing pipeline state, and
flips the displayed transport icon to the pause icon. -/
theorem toggle_from_idle_not_noop :
    baseState.player.gstState = GstState.null ∧
    baseState.player.uri = none ∧
    (on_play_pause baseState).player.calls = [PlayerCall.playC] ∧
    (on_play_pause baseState).playpause_icon ≠ baseState.playpause_icon ∧
    (on_play_pause baseState).player.gstState ≠ baseState.player.gstState := by
  decide

/-- C7 (amended): `on_play_pause` pauses and shows the start icon exactly
when the backend reports Playing; from every other backend state —
including Idle with nothing loaded — it calls `play()` and shows the pause
icon.  The cursor and the loaded uri are untouched either way. -/
theorem toggle_play_pause_spec (st : AppState) :
    (on_play_pause st).player.gstState
      = (if st.player.gstState = .playing then GstState.paused else .playing) ∧
    (on_play_pause st).playpause_icon
      = (if st.player.gstState = .playing then startIcon else pauseIcon) ∧
    (on_play_pause st).player.calls
      = st.player.calls
          ++ [if st.player.gstState = .playing then PlayerCall.pauseC else .playC] ∧
    (on_play_pause st).current_index = st.current_index ∧
    (on_play_pause st).current_playlist = st.current_playlist ∧
    (on_play_pause st).player.uri = st.player.uri := by
  by_cases h : st.player.gstState = .playing <;>
    simp [on_play_pause, GstPlayer.pause, GstPlayer.play, h]

/-! Selected-playlist frame lemmas: no handler but `on_add_selected`
touches `selected_tracks`. -/

lemma sel_play_track_from (st : AppState) (name : String) (idx : Int) :
    (_play_track_from st name idx).selected_tracks = st.selected_tracks := by
  simp only [_play_track_from]
  split_ifs <;> rfl

lemma sel_about_to_finish (st : AppState) :
    (_on_about_to_finish st).selected_tracks = st.selected_tracks := by
  simp only [_on_about_to_finish, _update_now_playing_labels]
  split_ifs <;> rfl

lemma sel_eos (st : AppState) :
    (_on_eos st).selected_tracks = st.selected_tracks := by
  simp only [_on_eos]
  split_ifs with h
  · exact sel_play_track_from st st.current_playlist (_advance_index st)
  · rfl

lemma sel_tags_update (st : AppState) (a b c : Option String) :
    (_update_now_playing_from_tags st a b c).selected_tracks = st.selected_tracks := by
  simp only [_update_now_playing_from_tags]
  split_ifs <;> rfl

lemma sel_gst_tags (st : AppState) (ev : TagEvent) :
    (_on_gst_tags st ev).selected_tracks = st.selected_tracks := by
  simp only [_on_gst_tags]
  cases hc : tagCover ev <;> split_ifs <;> simp [sel_tags_update]

lemma sel_on_seek (st : AppState) :
    (on_seek st).selected_tracks = st.selected_tracks := by
  simp only [on_seek]
  split_ifs <;> rfl

lemma sel_scale_set_value (st : AppState) (v : Int) :
    (scale_set_value st v).selected_tracks = st.selected_tracks := by
  simp only [scale_set_value]
  split_ifs with h
  · rfl
  · simp [sel_on_seek]

lemma sel_update_position (st : AppState) (pos dur : Int) :
    (update_position st pos dur).selected_tracks = st.selected_tracks := by
  simp only [update_position]
  split_ifs <;> simp [sel_scale_set_value]

lemma sel_on_stop (st : AppState) :
    (on_stop st).selected_tracks = st.selected_tracks := by
  simp only [on_stop]
  simp [sel_scale_set_value]

/-- C9: across every modelled input — query and page operations that
replace or clear the All playlist included — `selected_tracks` is
unchanged, except that `on_add_selected` with a selected row appends that
one track: the selected playlist is append-only and persists across
queries. -/
theorem selected_append_only (e : AppEvent) (st : AppState) :
    (appStep e st).selected_tracks =
      (match e with
       | .addSelected (some t) => st.selected_tracks ++ [t]
       | _ => st.selected_tracks) := by
  cases e with
  | searchArtist u =>
      simp only [appStep, on_search_artist, _clear_all_tracks]
      split_ifs <;> rfl
  | searchPlatform q =>
      simp only [appStep, on_search_on_platform, _clear_all_tracks]
      split_ifs <;> rfl
  | loadArtist ty =>
      simp only [appStep, load_artist_tracks, _clear_all_tracks]
      split_ifs <;> rfl
  | loadGenre g => cases g <;> rfl
  | prevPage =>
      simp only [appStep, on_prev_page, _clear_all_tracks]
      split_ifs <;> rfl
  | nextPage =>
      simp only [appStep, on_next_page, _clear_all_tracks]
      split_ifs <;> rfl
  | loadMore =>
      simp only [appStep, on_load_more]
      split_ifs <;> rfl
  | pageResult ts page append =>
      simp only [appStep, page_result, fill_track_list, _clear_all_tracks]
      split_ifs <;> rfl
  | rowActivated idx => exact sel_play_track_from st "all" idx
  | rowActivatedSelected idx => exact sel_play_track_from st "selected" idx
  | addSelected sel => cases sel <;> rfl
  | playPause =>
      simp only [appStep, on_play_pause]
      split_ifs <;> rfl
  | stopBtn => exact sel_on_stop st
  | seekStart => rfl
  | seekEnd => rfl
  | valueChanged v => exact sel_scale_set_value st v
  | posTick pos dur => exact sel_update_position st pos dur
  | busMessage m =>
      cases m with
      | eos => exact sel_eos st
      | errorMsg err dbg => rfl
      | tagMsg tl => exact sel_gst_tags st tl
  | aboutToFinish => exact sel_about_to_finish st

/-- C8: tag events patch the displayed metadata incrementally.  The title
label changes only when the event carries a truthy title (else it keeps
its prior value); the meta line changes only when the event carries a
truthy artist or genre (a truthy artist wins, else the genre line); the
displayed cover and the kept stream texture change only when the event
carries a decodable embedded image.  In particular an artist-only event
rewrites the subtitle and leaves title and artwork untouched. -/
theorem tags_patch_incrementally (st : AppState) (ev : TagEvent) :
    (_on_gst_tags st ev).now_title
      = (if truthy ev.title then oStr ev.title else st.now_title) ∧
    (_on_gst_tags st ev).now_meta
      = (if truthy ev.artist then oStr ev.artist
         else if truthy ev.genre then "genre: " ++ oStr ev.genre
         else st.now_meta) ∧
    (_on_gst_tags st ev).now_cover
      = (match tagCover ev with
         | some tex => some tex
         | none => st.now_cover) ∧
    (_on_gst_tags st ev).last_stream_texture
      = (match tagCover ev with
         | some tex => some tex
         | none => st.last_stream_texture) := by
  cases hc : tagCover ev <;>
    cases ht : truthy ev.title <;>
      cases ha : truthy ev.artist <;>
        cases hg : truthy ev.genre <;>
          simp [_on_gst_tags, _update_now_playing_from_tags, ht, ha, hg, hc]

/-- Playing the single-track All playlist, with a 300-second scale. -/
def c3Start : AppState :=
  { baseState with
      local_tracks := [trkA]
      current_index := 0
      pos_scale_max := 300
      player := { initPlayer with uri := some "s1", gstState := .playing } }

/-- C3 (counterexample): one seek gesture — latch set, two slider
movements (to 3 then to 5), latch clear — issues two backend seeks, not
exactly one: each intermediate movement seeks immediately, and both seeks
are already in the trace before the gesture-end event, which issues
none. -/
theorem seek_flood_cex :
    seekCalls (runEvents [.seekStart, .valueChanged 3, .valueChanged 5, .seekEnd]
        c3Start).player = [3, 5] ∧
    seekCalls (runEvents [.seekStart, .valueChanged 3, .valueChanged 5]
        c3Start).player = [3, 5] ∧
    (runEvents [.seekStart, .valueChanged 3, .valueChanged 5, .seekEnd]
        c3Start).is_seeking = false := by
  decide

/-- C3 (amended): while the seeking latch is set, every slider value
change to a new (clamped) value issues exactly one backend seek to that
value, immediately; gesture-start, gesture-end and position-poll ticks
never issue a seek (gesture-end only clears the latch), and value changes
while the latch is clear issue none. -/
theorem seek_calls_per_event (st : AppState) (v pos dur : Int) :
    seekCalls (appStep (.valueChanged v) st).player
      = seekCalls st.player ++
          (if st.is_seeking = true ∧ st.pos_scale_value ≠ clampScale st v
           then [clampScale st v] else []) ∧
    seekCalls (appStep .seekStart st).player = seekCalls st.player ∧
    seekCalls (appStep .seekEnd st).player = seekCalls st.player ∧
    seekCalls (appStep (.posTick pos dur) st).player = seekCalls st.player := by
  refine ⟨?_, rfl, rfl, ?_⟩
  · simp only [appStep, scale_set_value, clampScale]
    by_cases hv : st.pos_scale_value = max 0 (min v st.pos_scale_max)
    · rw [if_pos hv, if_neg (fun h => h.2 hv), List.append_nil]
    · rw [if_neg hv]
      simp only [on_seek]
      cases hs : st.is_seeking with
      | false => simp [hs, hv]
      | true =>
          have hmax : max 0 (max 0 (min v st.pos_scale_max))
              = max 0 (min v st.pos_scale_max) :=
            max_eq_right (le_max_left _ _)
          simp [hs, hv, GstPlayer.seek_seconds, seekCalls,
            List.filterMap_append, hmax]
  · simp only [appStep, update_position, scale_set_value, on_seek]
    cases hs : st.is_seeking <;> simp [hs] <;> split_ifs <;> rfl
